import Mathlib

/-!
Shallow embedding of `packages/gguf/src/estimator.ts` from ngxson/huggingface.js.

JavaScript numbers are modelled as exact rationals (`ℚ`).  All arithmetic in the
source is addition, multiplication, `min`/`max` and division; in `ℚ` division by
zero yields `0` (JavaScript would yield `NaN`/`Infinity`, a float special that has
no rational counterpart; no theorem below relies on that corner).
Metadata is the list of key/value pairs produced by the GGUF parser; `List.lookup`
mirrors JavaScript property access on the metadata record (first binding wins).
-/

/-- Scale factor `TO_MEGA = 1e-6` from the source. -/
def TO_MEGA : ℚ := 1 / 1000000

/-- Scale factor `TO_GIGA = 1e-9` from the source. -/
def TO_GIGA : ℚ := 1 / 1000000000

/-- Modelled from the spec: the quantization-type enumeration (`GGMLQuantizationType`
from `@huggingface/tasks`) is not under `src/`; §3 of the spec describes it as an
enumeration of numeric encodings, e.g. 32-bit float, 16-bit float and
block-quantized integer formats. -/
inductive GGMLQuantizationType where
  | F32
  | F16
  | Q8_0
  | Q4_K
  deriving DecidableEq, Repr

/-- Modelled from the spec: the static table `GGML_QUANT_SIZES` (quantization type
to average bits per element; fractional for block formats) is not under `src/`.
Bit-widths follow the GGML encodings the spec names: 32- and 16-bit floats and
block-quantized formats with fractional average widths. -/
def GGML_QUANT_SIZES : GGMLQuantizationType → ℚ
  | .F32 => 32
  | .F16 => 16
  | .Q8_0 => 17 / 2
  | .Q4_K => 9 / 2

/-- A metadata value: a number, an ordered sequence of numbers, or a string. -/
inductive GGUFValue where
  | num (q : ℚ)
  | arr (l : List ℚ)
  | str (s : String)
  deriving DecidableEq, Repr

/-- The architecture-metadata mapping: string keys to values. -/
abbrev GGUFMetadata := List (String × GGUFValue)

/-- One tensor of the manifest (`name` is informational; `shape` holds the
arbitrary-precision non-negative dimensions; `dtype` the element encoding). -/
structure GGUFTensorInfo where
  name : String
  shape : List ℕ
  dtype : GGMLQuantizationType
  deriving DecidableEq, Repr

/-- `RuntimeConfig` from the source: the chosen cache quantization for K and V.
The source applies `?? GGMLQuantizationType.F16` to each, so each is optional. -/
structure RuntimeConfig where
  kvTypeK : Option GGMLQuantizationType
  kvTypeV : Option GGMLQuantizationType
  deriving DecidableEq, Repr

structure MemoryEstimation where
  perToken : ℚ
  weight : ℚ
  deriving DecidableEq, Repr

structure ComputeEstimation where
  gFloatOps : ℚ
  deriving DecidableEq, Repr

/-- `RuntimeRequirementEstimation` from the source. -/
structure RuntimeRequirementEstimation where
  memory : MemoryEstimation
  compute : ComputeEstimation
  deriving DecidableEq, Repr

/-- The failure of the estimator: the source throws
`new Error("Memory usage estimation for arch ... is not supported")`; the spec
names it `UnsupportedArchitecture`, carrying the architecture name. -/
inductive EstimatorError where
  | UnsupportedArchitecture (arch : String)
  deriving DecidableEq, Repr

/-- JavaScript `String.prototype.startsWith`. -/
def jsStartsWith (s pre : String) : Bool :=
  pre.data.isPrefixOf s.data

/-- Read a numeric metadata value: `metadata[key] as number` yields the number if
the key is bound to one; an absent binding is `undefined` (here `none`). -/
def readNum (m : GGUFMetadata) (k : String) : Option ℚ :=
  match m.lookup k with
  | some (.num q) => some q
  | _ => none

/-- `head_count_kv` read as `number[] | number`, with the source's `?? []` default. -/
inductive NumOrArr where
  | num (q : ℚ)
  | arr (l : List ℚ)
  deriving DecidableEq, Repr

/-- Read a `number[] | number` metadata value, defaulting to the empty sequence
(the source's `?? []`). -/
def readNumOrArr (m : GGUFMetadata) (k : String) : NumOrArr :=
  match m.lookup k with
  | some (.num q) => .num q
  | some (.arr l) => .arr l
  | _ => .arr []

/-- `const arch = metadata["general.architecture"] ?? "unknown"`. -/
def getArch (m : GGUFMetadata) : String :=
  match m.lookup "general.architecture" with
  | some (.str s) => s
  | _ => "unknown"

/-- `const n_embd = metadata[arch + ".embedding_length"] ?? 0`. -/
def n_embd (m : GGUFMetadata) : ℚ :=
  (readNum m (getArch m ++ ".embedding_length")).getD 0

/-- `const n_head = metadata[arch + ".attention.head_count"] ?? 0`. -/
def n_head (m : GGUFMetadata) : ℚ :=
  (readNum m (getArch m ++ ".attention.head_count")).getD 0

/-- `const n_embd_head_k = metadata[arch + ".attention.key_length"] ?? n_embd / n_head`. -/
def n_embd_head_k (m : GGUFMetadata) : ℚ :=
  (readNum m (getArch m ++ ".attention.key_length")).getD (n_embd m / n_head m)

/-- `const n_embd_head_v = metadata[arch + ".attention.value_length"] ?? n_embd / n_head`. -/
def n_embd_head_v (m : GGUFMetadata) : ℚ :=
  (readNum m (getArch m ++ ".attention.value_length")).getD (n_embd m / n_head m)

/-- `const n_head_kv = metadata[arch + ".attention.head_count_kv"] ?? []`. -/
def n_head_kv (m : GGUFMetadata) : NumOrArr :=
  readNumOrArr m (getArch m ++ ".attention.head_count_kv")

/-- `const n_layer = metadata[arch + ".block_count"] ?? 0`. -/
def n_layer (m : GGUFMetadata) : ℚ :=
  (readNum m (getArch m ++ ".block_count")).getD 0

/-- The iteration count of the source's `for (let i = 0; i < n_layer; i++)` loops
and the length of `Array(n_layer)`.  GGUF supplies `block_count` as a non-negative
integer, for which this is exactly `n_layer` (`Array(n_layer)` throws a
`RangeError` on any other value, a case outside the claims). -/
def n_layer_nat (m : GGUFMetadata) : ℕ :=
  ⌊n_layer m⌋.toNat

/-- The source's `n_head_kv_arr`: `Array(n_layer).fill(n_head)`, then for the array
case each truthy entry `n_head_kv[i]` overwrites slot `i`, and for the scalar case
every slot is overwritten by the scalar. -/
def n_head_kv_arr (m : GGUFMetadata) : List ℚ :=
  match n_head_kv m with
  | .arr l =>
      (List.range (n_layer_nat m)).map (fun i =>
        match l[i]? with
        | some q => if q ≠ 0 then q else n_head m
        | none => n_head m)
  | .num q => (List.range (n_layer_nat m)).map (fun _ => q)

/-- The K-cache accumulation loop:
`cacheMBytesK += n_embd_head_k * n_head_kv_arr[i] * (GGML_QUANT_SIZES[kvTypeK] / 8) * TO_MEGA`. -/
def cacheMBytesK (config : RuntimeConfig) (m : GGUFMetadata) : ℚ :=
  (n_head_kv_arr m).foldl
    (fun acc h =>
      acc + n_embd_head_k m * h * (GGML_QUANT_SIZES (config.kvTypeK.getD .F16) / 8) * TO_MEGA)
    0

/-- The V-cache accumulation loop, symmetric to `cacheMBytesK`. -/
def cacheMBytesV (config : RuntimeConfig) (m : GGUFMetadata) : ℚ :=
  (n_head_kv_arr m).foldl
    (fun acc h =>
      acc + n_embd_head_v m * h * (GGML_QUANT_SIZES (config.kvTypeV.getD .F16) / 8) * TO_MEGA)
    0

/-- The weight loop: for each tensor, `nElem = Number(shape.reduce((a, b) => a * b, 1n))`,
`tensorSizeInBytes = nElem * (GGML_QUANT_SIZES[dtype] / 8)`, accumulated with
`mBytesWeight += tensorSizeInBytes * TO_MEGA`; `tensorInfos || []` when absent. -/
def mBytesWeight (tensorInfos : Option (List GGUFTensorInfo)) : ℚ :=
  (tensorInfos.getD []).foldl
    (fun acc t =>
      acc + ((t.shape.foldl (· * ·) 1 : ℕ) : ℚ) * (GGML_QUANT_SIZES t.dtype / 8) * TO_MEGA)
    0

/-- `const n_expert = metadata[arch + ".expert_count"] ?? 1`. -/
def n_expert (m : GGUFMetadata) : ℚ :=
  (readNum m (getArch m ++ ".expert_count")).getD 1

/-- `const n_expert_used = metadata[arch + ".expert_used_count"] ?? 1`. -/
def n_expert_used (m : GGUFMetadata) : ℚ :=
  (readNum m (getArch m ++ ".expert_used_count")).getD 1

/-- `const n_ff = metadata[arch + ".feed_forward_length"] ?? 1`. -/
def n_ff (m : GGUFMetadata) : ℚ :=
  (readNum m (getArch m ++ ".feed_forward_length")).getD 1

/-- `const n_vocab = metadata[arch + ".vocab_size"] ?? 1`. -/
def n_vocab (m : GGUFMetadata) : ℚ :=
  (readNum m (getArch m ++ ".vocab_size")).getD 1

/-- `const moe_ratio = Math.max(1, Math.min(1, n_expert_used) / Math.min(1, n_expert))`. -/
def moe_ratio (m : GGUFMetadata) : ℚ :=
  max 1 (min 1 (n_expert_used m) / min 1 (n_expert m))

/-- `const floatOpsMatMul = (x, y, z) => 2 * x * y * z`. -/
def floatOpsMatMul (x y z : ℚ) : ℚ := 2 * x * y * z

/-- One layer's `floatOpsLayer`: elementwise ops, attention projections, feed
forward (scaled by the MoE ratio). -/
def floatOpsLayer (m : GGUFMetadata) : ℚ :=
  1000 * n_embd m + 4 * 3 * n_embd m * n_embd m + 4 * 2 * n_embd m * n_ff m * moe_ratio m

/-- The compute loop `gFloatOps += floatOpsLayer * TO_GIGA` over all layers, then
the final `gFloatOps += floatOpsMatMul(n_embd, n_vocab, 1) * TO_GIGA`. -/
def gFloatOps (m : GGUFMetadata) : ℚ :=
  (List.range (n_layer_nat m)).foldl (fun acc _ => acc + floatOpsLayer m * TO_GIGA) 0
    + floatOpsMatMul (n_embd m) (n_vocab m) 1 * TO_GIGA

/-- `estimateRuntimeRequirement(config, metadata, tensorInfos?)`: rejects
architectures whose name starts with `"mamba"` or `"rwkv"`, otherwise assembles
the estimation record from the three sub-computations. -/
def estimateRuntimeRequirement (config : RuntimeConfig) (metadata : GGUFMetadata)
    (tensorInfos : Option (List GGUFTensorInfo)) :
    Except EstimatorError RuntimeRequirementEstimation :=
  if jsStartsWith (getArch metadata) "mamba" || jsStartsWith (getArch metadata) "rwkv" then
    .error (.UnsupportedArchitecture (getArch metadata))
  else
    .ok {
      memory := {
        perToken := cacheMBytesK config metadata + cacheMBytesV config metadata
        weight := mBytesWeight tensorInfos
      }
      compute := { gFloatOps := gFloatOps metadata }
    }

/-- Updating one metadata field: binding `k` to the number `q` while every other
binding is left untouched (the new binding shadows any earlier one for lookup,
exactly as property assignment does on the parsed metadata record). -/
def setNum (m : GGUFMetadata) (k : String) (q : ℚ) : GGUFMetadata :=
  (k, .num q) :: m

/-- `head_count_kv` was supplied as a scalar, or as the empty sequence, or not at
all (the source defaults an absent value to the empty sequence). -/
def scalarOrEmpty : NumOrArr → Prop
  | .num _ => True
  | .arr l => l = []

/-- Every numeric value stored in the metadata (scalar or sequence entry) is
non-negative. -/
def NonnegValues (m : GGUFMetadata) : Prop :=
  ∀ k v, (k, v) ∈ m →
    match v with
    | .num q => 0 ≤ q
    | .arr l => ∀ x ∈ l, 0 ≤ x
    | .str _ => True

section ListLemmas

lemma foldl_add_eq_sum {α : Type} (f : α → ℚ) (l : List α) (a : ℚ) :
    l.foldl (fun acc x => acc + f x) a = a + (l.map f).sum := by
  induction l generalizing a with
  | nil => simp
  | cons x xs ih => simp [ih, add_assoc]

lemma sum_map_range_const (c : ℚ) (n : ℕ) :
    ((List.range n).map (fun _ => c)).sum = n * c := by
  induction n with
  | zero => simp
  | succ k ih =>
      rw [List.range_succ, List.map_append, List.sum_append, ih]
      push_cast
      simp
      ring

lemma sum_map_eq_sum_range_getD (f : ℚ → ℚ) (l : List ℚ) :
    (l.map f).sum = ∑ i ∈ Finset.range l.length, f (l.getD i 0) := by
  induction l with
  | nil => simp
  | cons x xs ih =>
      rw [List.map_cons, List.sum_cons, List.length_cons, Finset.sum_range_succ']
      simp only [List.getD_cons_succ, List.getD_cons_zero]
      rw [ih]
      ring

lemma lookup_eq_none_of_forall (m : GGUFMetadata) (k : String)
    (h : ∀ p ∈ m, p.1 ≠ k) : m.lookup k = none := by
  induction m with
  | nil => rfl
  | cons p ps ih =>
      obtain ⟨a, b⟩ := p
      have hp : a ≠ k := h (a, b) (List.mem_cons_self _ ps)
      have hb : (k == a) = false := beq_eq_false_iff_ne.mpr (fun e => hp e.symm)
      simp only [List.lookup, hb]
      exact ih (fun q hq => h q (List.mem_cons_of_mem _ hq))

end ListLemmas

section StringLemmas

lemma append_right_ne (a : String) {s t : String} (h : s ≠ t) :
    a ++ s ≠ a ++ t := by
  intro e
  apply h
  have hd : a.data ++ s.data = a.data ++ t.data := by
    have h1 := congrArg String.data e
    rwa [String.data_append, String.data_append] at h1
  exact String.ext (List.append_cancel_left hd)

lemma blockCountKey_ne_archKey (a : String) :
    a ++ ".block_count" ≠ "general.architecture" := by
  intro e
  have h1 : (a ++ ".block_count").data.reverse.head? = some 't' := by
    rw [String.data_append, List.reverse_append]; rfl
  rw [e] at h1
  simp at h1

end StringLemmas

section ClosedForms

lemma length_n_head_kv_arr (m : GGUFMetadata) :
    (n_head_kv_arr m).length = n_layer_nat m := by
  unfold n_head_kv_arr
  cases n_head_kv m <;> simp

lemma cacheMBytesK_eq (config : RuntimeConfig) (m : GGUFMetadata) :
    cacheMBytesK config m =
      ((n_head_kv_arr m).map (fun h =>
        n_embd_head_k m * h * (GGML_QUANT_SIZES (config.kvTypeK.getD .F16) / 8) * TO_MEGA)).sum := by
  unfold cacheMBytesK
  rw [foldl_add_eq_sum, zero_add]

lemma cacheMBytesV_eq (config : RuntimeConfig) (m : GGUFMetadata) :
    cacheMBytesV config m =
      ((n_head_kv_arr m).map (fun h =>
        n_embd_head_v m * h * (GGML_QUANT_SIZES (config.kvTypeV.getD .F16) / 8) * TO_MEGA)).sum := by
  unfold cacheMBytesV
  rw [foldl_add_eq_sum, zero_add]

lemma mBytesWeight_eq (tensorInfos : Option (List GGUFTensorInfo)) :
    mBytesWeight tensorInfos =
      ((tensorInfos.getD []).map (fun t =>
        ((t.shape.foldl (· * ·) 1 : ℕ) : ℚ) * (GGML_QUANT_SIZES t.dtype / 8) * TO_MEGA)).sum := by
  unfold mBytesWeight
  rw [foldl_add_eq_sum, zero_add]

lemma gFloatOps_eq (m : GGUFMetadata) :
    gFloatOps m = (n_layer_nat m : ℚ) * (floatOpsLayer m * TO_GIGA)
      + floatOpsMatMul (n_embd m) (n_vocab m) 1 * TO_GIGA := by
  unfold gFloatOps
  rw [foldl_add_eq_sum, zero_add, sum_map_range_const]

end ClosedForms

section SetNumLemmas

lemma lookup_setNum_self (m : GGUFMetadata) (k : String) (q : ℚ) :
    (setNum m k q).lookup k = some (.num q) := by
  simp [setNum, List.lookup]

lemma lookup_setNum_ne (m : GGUFMetadata) {k k' : String} (q : ℚ) (h : k' ≠ k) :
    (setNum m k q).lookup k' = m.lookup k' := by
  have hb : (k' == k) = false := beq_eq_false_iff_ne.mpr h
  simp [setNum, List.lookup, hb]

lemma readNum_setNum_self (m : GGUFMetadata) (k : String) (q : ℚ) :
    readNum (setNum m k q) k = some q := by
  simp [readNum, lookup_setNum_self]

lemma readNum_setNum_ne (m : GGUFMetadata) {k k' : String} (q : ℚ) (h : k' ≠ k) :
    readNum (setNum m k q) k' = readNum m k' := by
  simp [readNum, lookup_setNum_ne m q h]

lemma readNumOrArr_setNum_ne (m : GGUFMetadata) {k k' : String} (q : ℚ) (h : k' ≠ k) :
    readNumOrArr (setNum m k q) k' = readNumOrArr m k' := by
  simp [readNumOrArr, lookup_setNum_ne m q h]

lemma getArch_setNum_blockCount (m : GGUFMetadata) (q : ℚ) :
    getArch (setNum m (getArch m ++ ".block_count") q) = getArch m := by
  unfold getArch
  rw [lookup_setNum_ne m q (Ne.symm (blockCountKey_ne_archKey _))]

lemma n_embd_setNum_blockCount (m : GGUFMetadata) (q : ℚ) :
    n_embd (setNum m (getArch m ++ ".block_count") q) = n_embd m := by
  unfold n_embd
  rw [getArch_setNum_blockCount, readNum_setNum_ne m q (append_right_ne _ (by decide))]

lemma n_head_setNum_blockCount (m : GGUFMetadata) (q : ℚ) :
    n_head (setNum m (getArch m ++ ".block_count") q) = n_head m := by
  unfold n_head
  rw [getArch_setNum_blockCount, readNum_setNum_ne m q (append_right_ne _ (by decide))]

lemma n_embd_head_k_setNum_blockCount (m : GGUFMetadata) (q : ℚ) :
    n_embd_head_k (setNum m (getArch m ++ ".block_count") q) = n_embd_head_k m := by
  unfold n_embd_head_k
  rw [getArch_setNum_blockCount, readNum_setNum_ne m q (append_right_ne _ (by decide)),
    n_embd_setNum_blockCount, n_head_setNum_blockCount]

lemma n_embd_head_v_setNum_blockCount (m : GGUFMetadata) (q : ℚ) :
    n_embd_head_v (setNum m (getArch m ++ ".block_count") q) = n_embd_head_v m := by
  unfold n_embd_head_v
  rw [getArch_setNum_blockCount, readNum_setNum_ne m q (append_right_ne _ (by decide)),
    n_embd_setNum_blockCount, n_head_setNum_blockCount]

lemma n_head_kv_setNum_blockCount (m : GGUFMetadata) (q : ℚ) :
    n_head_kv (setNum m (getArch m ++ ".block_count") q) = n_head_kv m := by
  unfold n_head_kv
  rw [getArch_setNum_blockCount, readNumOrArr_setNum_ne m q (append_right_ne _ (by decide))]

lemma n_expert_setNum_blockCount (m : GGUFMetadata) (q : ℚ) :
    n_expert (setNum m (getArch m ++ ".block_count") q) = n_expert m := by
  unfold n_expert
  rw [getArch_setNum_blockCount, readNum_setNum_ne m q (append_right_ne _ (by decide))]

lemma n_expert_used_setNum_blockCount (m : GGUFMetadata) (q : ℚ) :
    n_expert_used (setNum m (getArch m ++ ".block_count") q) = n_expert_used m := by
  unfold n_expert_used
  rw [getArch_setNum_blockCount, readNum_setNum_ne m q (append_right_ne _ (by decide))]

lemma n_ff_setNum_blockCount (m : GGUFMetadata) (q : ℚ) :
    n_ff (setNum m (getArch m ++ ".block_count") q) = n_ff m := by
  unfold n_ff
  rw [getArch_setNum_blockCount, readNum_setNum_ne m q (append_right_ne _ (by decide))]

lemma n_vocab_setNum_blockCount (m : GGUFMetadata) (q : ℚ) :
    n_vocab (setNum m (getArch m ++ ".block_count") q) = n_vocab m := by
  unfold n_vocab
  rw [getArch_setNum_blockCount, readNum_setNum_ne m q (append_right_ne _ (by decide))]

lemma moe_ratio_setNum_blockCount (m : GGUFMetadata) (q : ℚ) :
    moe_ratio (setNum m (getArch m ++ ".block_count") q) = moe_ratio m := by
  unfold moe_ratio
  rw [n_expert_setNum_blockCount, n_expert_used_setNum_blockCount]

lemma floatOpsLayer_setNum_blockCount (m : GGUFMetadata) (q : ℚ) :
    floatOpsLayer (setNum m (getArch m ++ ".block_count") q) = floatOpsLayer m := by
  unfold floatOpsLayer
  rw [n_embd_setNum_blockCount, n_ff_setNum_blockCount, moe_ratio_setNum_blockCount]

lemma n_layer_setNum_blockCount (m : GGUFMetadata) (q : ℚ) :
    n_layer (setNum m (getArch m ++ ".block_count") q) = q := by
  unfold n_layer
  rw [getArch_setNum_blockCount, readNum_setNum_self]
  rfl

lemma n_layer_nat_setNum_blockCount (m : GGUFMetadata) (L : ℕ) :
    n_layer_nat (setNum m (getArch m ++ ".block_count") (L : ℚ)) = L := by
  unfold n_layer_nat
  rw [n_layer_setNum_blockCount]
  simp

end SetNumLemmas

/-- The constant per-layer effective KV head count when `head_count_kv` is a
scalar or the empty sequence: the scalar itself, or `head_count`. -/
def kvHeadConst (m : GGUFMetadata) : ℚ :=
  match n_head_kv m with
  | .num c => c
  | .arr _ => n_head m

lemma n_head_kv_arr_of_scalarOrEmpty (m : GGUFMetadata)
    (hs : scalarOrEmpty (n_head_kv m)) :
    n_head_kv_arr m = (List.range (n_layer_nat m)).map (fun _ => kvHeadConst m) := by
  unfold n_head_kv_arr kvHeadConst
  cases h : n_head_kv m with
  | num q => rfl
  | arr l =>
      have hl : l = [] := by
        have := hs
        rw [h] at this
        exact this
      subst hl
      simp

section ConcreteInputs

/-- 16-bit float cache quantization for both K and V. -/
def cfgF16 : RuntimeConfig := { kvTypeK := some .F16, kvTypeV := some .F16 }

/-- The spec's concrete scenario: a llama-style model with 32 layers, 4096-wide
embeddings, 32 heads, 32 KV heads and 128-wide attention heads. -/
def mLlama : GGUFMetadata :=
  [("general.architecture", .str "llama"),
   ("llama.embedding_length", .num 4096),
   ("llama.attention.head_count", .num 32),
   ("llama.attention.head_count_kv", .num 32),
   ("llama.block_count", .num 32),
   ("llama.attention.key_length", .num 128),
   ("llama.attention.value_length", .num 128)]

/-- Metadata naming a state-space architecture. -/
def mMamba : GGUFMetadata := [("general.architecture", .str "mamba-2")]

end ConcreteInputs

section SumHelpers

lemma sum_map_map_const (g : ℚ → ℚ) (c : ℚ) (n : ℕ) :
    (((List.range n).map (fun _ => c)).map g).sum = n * g c := by
  rw [List.map_map]
  exact sum_map_range_const (g c) n

lemma getD_map_range_const (c : ℚ) (n i : ℕ) (hi : i < n) :
    ((List.range n).map (fun _ => c)).getD i 0 = c := by
  simp [List.getD, List.getElem?_map, List.getElem?_range, hi]

lemma sum_range_f_getD_map_const (g : ℚ → ℚ) (c : ℚ) (n : ℕ) :
    ∑ i ∈ Finset.range n, g (((List.range n).map (fun _ => c)).getD i 0) = n * g c := by
  rw [Finset.sum_congr rfl
    (fun i hi => by rw [getD_map_range_const c n i (Finset.mem_range.mp hi)])]
  simp [Finset.sum_const, Finset.card_range]

end SumHelpers

section LlamaEvals

lemma getArch_mLlama : getArch mLlama = "llama" := rfl

lemma n_layer_nat_mLlama : n_layer_nat mLlama = 32 := by
  unfold n_layer_nat
  rw [show n_layer mLlama = 32 from rfl]
  simp

lemma n_head_kv_arr_mLlama :
    n_head_kv_arr mLlama = (List.range 32).map (fun _ => (32 : ℚ)) := by
  rw [n_head_kv_arr_of_scalarOrEmpty mLlama
    (by rw [show n_head_kv mLlama = .num 32 from rfl]; trivial), n_layer_nat_mLlama]
  rfl

lemma moe_ratio_mLlama : moe_ratio mLlama = 1 := by
  unfold moe_ratio
  rw [show n_expert mLlama = 1 from rfl, show n_expert_used mLlama = 1 from rfl]
  norm_num

lemma floatOpsLayer_mLlama : floatOpsLayer mLlama = 205455360 := by
  unfold floatOpsLayer
  rw [show n_embd mLlama = 4096 from rfl, show n_ff mLlama = 1 from rfl, moe_ratio_mLlama]
  norm_num

lemma gFloatOps_mLlama : gFloatOps mLlama = 12840976 / 1953125 := by
  rw [gFloatOps_eq, n_layer_nat_mLlama, floatOpsLayer_mLlama,
    show n_embd mLlama = 4096 from rfl, show n_vocab mLlama = 1 from rfl]
  unfold floatOpsMatMul TO_GIGA
  norm_num

lemma perToken_mLlama :
    cacheMBytesK cfgF16 mLlama + cacheMBytesV cfgF16 mLlama = 8192 / 15625 := by
  rw [cacheMBytesK_eq, cacheMBytesV_eq, n_head_kv_arr_mLlama,
    sum_map_map_const, sum_map_map_const]
  rw [show n_embd_head_k mLlama = 128 from rfl, show n_embd_head_v mLlama = 128 from rfl]
  unfold GGML_QUANT_SIZES TO_MEGA cfgF16
  norm_num

lemma estimate_mLlama :
    estimateRuntimeRequirement cfgF16 mLlama none =
      .ok { memory := { perToken := 8192 / 15625, weight := 0 },
            compute := { gFloatOps := 12840976 / 1953125 } } := by
  unfold estimateRuntimeRequirement
  rw [getArch_mLlama]
  rw [show jsStartsWith "llama" "mamba" = false from rfl,
    show jsStartsWith "llama" "rwkv" = false from rfl]
  simp only [Bool.or_self, Bool.false_eq_true, if_false]
  rw [perToken_mLlama, gFloatOps_mLlama]
  rfl

end LlamaEvals

/-- C1: for every supported architecture (name not beginning with `"mamba"` or
`"rwkv"`), `estimateRuntimeRequirement` returns `memory.perToken` equal to the sum
over the `block_count` layers of `n_embd_head_k * effective_head_count_kv[i] *
(bits(kvTypeK)/8) * 1e-6` plus `n_embd_head_v * effective_head_count_kv[i] *
(bits(kvTypeV)/8) * 1e-6`, i.e. the K-cache and V-cache per-token megabyte totals
accumulated across all layers and summed. -/
theorem c1_perToken_formula (config : RuntimeConfig) (m : GGUFMetadata)
    (t : Option (List GGUFTensorInfo))
    (hM : jsStartsWith (getArch m) "mamba" = false)
    (hR : jsStartsWith (getArch m) "rwkv" = false) :
    (estimateRuntimeRequirement config m t).map (fun r => r.memory.perToken)
      = .ok (∑ i ∈ Finset.range (n_layer_nat m),
          (n_embd_head_k m * ((n_head_kv_arr m).getD i 0)
              * (GGML_QUANT_SIZES (config.kvTypeK.getD .F16) / 8) * TO_MEGA
            + n_embd_head_v m * ((n_head_kv_arr m).getD i 0)
              * (GGML_QUANT_SIZES (config.kvTypeV.getD .F16) / 8) * TO_MEGA)) := by
  unfold estimateRuntimeRequirement
  rw [hM, hR]
  simp only [Bool.or_self, Bool.false_eq_true, if_false, Except.map]
  rw [cacheMBytesK_eq, cacheMBytesV_eq, sum_map_eq_sum_range_getD,
    sum_map_eq_sum_range_getD, length_n_head_kv_arr, ← Finset.sum_add_distrib]

/-- Witness for C1: on the concrete llama scenario the per-token formula yields
exactly 0.524288 megabytes. -/
theorem c1_perToken_formula_witness :
    (estimateRuntimeRequirement cfgF16 mLlama none).map (fun r => r.memory.perToken)
      = .ok (8192 / 15625) := by
  rw [c1_perToken_formula cfgF16 mLlama none rfl rfl]
  rw [n_layer_nat_mLlama, n_head_kv_arr_mLlama]
  have hsum : ∀ i ∈ Finset.range 32,
      n_embd_head_k mLlama * (((List.range 32).map (fun _ => (32 : ℚ))).getD i 0)
          * (GGML_QUANT_SIZES (cfgF16.kvTypeK.getD .F16) / 8) * TO_MEGA
        + n_embd_head_v mLlama * (((List.range 32).map (fun _ => (32 : ℚ))).getD i 0)
          * (GGML_QUANT_SIZES (cfgF16.kvTypeV.getD .F16) / 8) * TO_MEGA
      = (8192 : ℚ) / 500000 := by
    intro i hi
    rw [getD_map_range_const 32 32 i (Finset.mem_range.mp hi)]
    rw [show n_embd_head_k mLlama = 128 from rfl, show n_embd_head_v mLlama = 128 from rfl]
    unfold GGML_QUANT_SIZES TO_MEGA cfgF16
    norm_num
  rw [Finset.sum_congr rfl hsum]
  simp only [Finset.sum_const, Finset.card_range, nsmul_eq_mul]
  norm_num

/-- C2: every input whose architecture name begins with `"mamba"` or `"rwkv"`
fails with an `UnsupportedArchitecture` error carrying the architecture name and
no (partial) estimate; an input with architecture name `"llama"` does not fail. -/
theorem c2_rejection_rule (config : RuntimeConfig) (m : GGUFMetadata)
    (t : Option (List GGUFTensorInfo)) :
    ((jsStartsWith (getArch m) "mamba" = true ∨ jsStartsWith (getArch m) "rwkv" = true) →
      estimateRuntimeRequirement config m t
        = .error (.UnsupportedArchitecture (getArch m))) ∧
    (getArch m = "llama" → (estimateRuntimeRequirement config m t).isOk = true) := by
  constructor
  · intro h
    unfold estimateRuntimeRequirement
    rcases h with h | h <;> rw [h] <;> simp
  · intro h
    unfold estimateRuntimeRequirement
    rw [h]
    rw [show jsStartsWith "llama" "mamba" = false from rfl,
      show jsStartsWith "llama" "rwkv" = false from rfl]
    simp [Except.isOk, Except.toBool]

/-- Witness for C2: the architecture `"mamba-2"` is rejected with the error
carrying its name, and the llama scenario succeeds. -/
theorem c2_rejection_rule_witness :
    estimateRuntimeRequirement cfgF16 mMamba none
        = .error (.UnsupportedArchitecture "mamba-2") ∧
      (estimateRuntimeRequirement cfgF16 mLlama none).isOk = true := by
  constructor
  · exact (c2_rejection_rule cfgF16 mMamba none).1 (Or.inl rfl)
  · exact (c2_rejection_rule cfgF16 mLlama none).2 rfl

/-- C3 counterexample: on the spec's concrete scenario the code returns
`memory.perToken` = 0.524288 MB — exactly half of the claimed ≈ 1.048576 MB. -/
theorem c3_concrete_counterexample :
    (estimateRuntimeRequirement cfgF16 mLlama none).map (fun r => r.memory.perToken)
        = .ok (8192 / 15625) ∧
      (8192 / 15625 : ℚ) ≠ 1048576 / 1000000 ∧
      2 * (8192 / 15625 : ℚ) = 1048576 / 1000000 := by
  refine ⟨?_, by norm_num, by norm_num⟩
  rw [estimate_mLlama]
  rfl

/-- C3 (amended): on the concrete scenario (`llama`, `embedding_length=4096`,
`head_count=32`, `head_count_kv=32`, `block_count=32`, `key_length=value_length=128`,
no manifest, 16-bit-float cache quantization) the estimator returns
`memory.perToken` = 0.524288 MB, `memory.weight` = 0, and a strictly positive
(finite, rational) `compute.gFloatOps` = 6.574579712. -/
theorem c3_concrete_scenario :
    estimateRuntimeRequirement cfgF16 mLlama none
        = .ok { memory := { perToken := 8192 / 15625, weight := 0 },
                compute := { gFloatOps := 12840976 / 1953125 } } ∧
      (0 : ℚ) < 12840976 / 1953125 ∧ (8192 / 15625 : ℚ) = 524288 / 1000000 :=
  ⟨estimate_mLlama, by norm_num, by norm_num⟩

lemma getD_map_range (f : ℕ → ℚ) (n i : ℕ) (hi : i < n) :
    ((List.range n).map f).getD i 0 = f i := by
  simp [List.getD, List.getElem?_map, List.getElem?_range, hi]

/-- C4: the effective `head_count_kv` for layer `i` is: the `i`-th entry of the
supplied sequence when present and truthy, else the scalar `head_count`; the
scalar itself for every layer when supplied as a scalar; `head_count` for every
layer when absent — and the resolved sequence always has length `block_count`. -/
theorem c4_head_count_kv_resolution (m : GGUFMetadata) :
    (n_head_kv_arr m).length = n_layer_nat m ∧
    (∀ l, m.lookup (getArch m ++ ".attention.head_count_kv") = some (.arr l) →
      ∀ i < n_layer_nat m,
        (n_head_kv_arr m).getD i 0
          = match l[i]? with
            | some q => if q ≠ 0 then q else n_head m
            | none => n_head m) ∧
    (∀ q, m.lookup (getArch m ++ ".attention.head_count_kv") = some (.num q) →
      ∀ i < n_layer_nat m, (n_head_kv_arr m).getD i 0 = q) ∧
    (m.lookup (getArch m ++ ".attention.head_count_kv") = none →
      ∀ i < n_layer_nat m, (n_head_kv_arr m).getD i 0 = n_head m) := by
  refine ⟨length_n_head_kv_arr m, ?_, ?_, ?_⟩
  · intro l hl i hi
    have hkv : n_head_kv m = .arr l := by
      unfold n_head_kv readNumOrArr
      rw [hl]
    unfold n_head_kv_arr
    rw [hkv]
    exact getD_map_range _ _ i hi
  · intro q hq i hi
    have hkv : n_head_kv m = .num q := by
      unfold n_head_kv readNumOrArr
      rw [hq]
    unfold n_head_kv_arr
    rw [hkv]
    exact getD_map_range _ _ i hi
  · intro hn i hi
    have hkv : n_head_kv m = .arr [] := by
      unfold n_head_kv readNumOrArr
      rw [hn]
    unfold n_head_kv_arr
    rw [hkv]
    rw [getD_map_range _ _ i hi]
    simp

/-- A sequence `head_count_kv` shorter than `block_count` and with a falsy entry:
entry 0 is `8` (kept), entry 1 is `0` (falsy, replaced by `head_count = 32`),
entry 2 is missing (replaced by `head_count = 32`). -/
def mHeads : GGUFMetadata :=
  [("general.architecture", .str "llama"),
   ("llama.attention.head_count", .num 32),
   ("llama.attention.head_count_kv", .arr [8, 0]),
   ("llama.block_count", .num 3)]

lemma n_layer_nat_mHeads : n_layer_nat mHeads = 3 := by
  unfold n_layer_nat
  rw [show n_layer mHeads = 3 from rfl]
  simp

/-- Witness for C4: on `mHeads` the resolved sequence has length 3 and reads
`[8, 32, 32]`. -/
theorem c4_head_count_kv_resolution_witness :
    (n_head_kv_arr mHeads).length = 3 ∧
      (n_head_kv_arr mHeads).getD 0 0 = 8 ∧
      (n_head_kv_arr mHeads).getD 1 0 = 32 ∧
      (n_head_kv_arr mHeads).getD 2 0 = 32 := by
  obtain ⟨hlen, harr, -, -⟩ := c4_head_count_kv_resolution mHeads
  refine ⟨by rw [hlen, n_layer_nat_mHeads], ?_, ?_, ?_⟩
  · have h := harr [8, 0] rfl 0 (by rw [n_layer_nat_mHeads]; norm_num)
    rw [h]
    norm_num
  · have h := harr [8, 0] rfl 1 (by rw [n_layer_nat_mHeads]; norm_num)
    rw [h]
    rw [show n_head mHeads = 32 from rfl]
    norm_num
  · have h := harr [8, 0] rfl 2 (by rw [n_layer_nat_mHeads]; norm_num)
    rw [h]
    rw [show n_head mHeads = 32 from rfl]
    norm_num

lemma estimate_ok (config : RuntimeConfig) (m : GGUFMetadata)
    (t : Option (List GGUFTensorInfo))
    (hM : jsStartsWith (getArch m) "mamba" = false)
    (hR : jsStartsWith (getArch m) "rwkv" = false) :
    estimateRuntimeRequirement config m t =
      .ok { memory := { perToken := cacheMBytesK config m + cacheMBytesV config m,
                        weight := mBytesWeight t },
            compute := { gFloatOps := gFloatOps m } } := by
  unfold estimateRuntimeRequirement
  rw [hM, hR]
  rfl

/-- C5: the MoE activation ratio used by the compute step is
`max(1, min(1, expert_used_count) / min(1, expert_count))` (both counts default
to 1 when absent); with both counts absent it is exactly 1, and for any pair of
counts both ≥ 1 it is exactly 1. -/
theorem c5_moe_ratio_clamp (m : GGUFMetadata) :
    moe_ratio m = max 1 (min 1 (n_expert_used m) / min 1 (n_expert m)) ∧
    (m.lookup (getArch m ++ ".expert_count") = none →
      m.lookup (getArch m ++ ".expert_used_count") = none → moe_ratio m = 1) ∧
    (1 ≤ n_expert_used m → 1 ≤ n_expert m → moe_ratio m = 1) := by
  refine ⟨rfl, ?_, ?_⟩
  · intro h1 h2
    have e1 : n_expert m = 1 := by
      unfold n_expert readNum
      rw [h1]
      rfl
    have e2 : n_expert_used m = 1 := by
      unfold n_expert_used readNum
      rw [h2]
      rfl
    unfold moe_ratio
    rw [e1, e2]
    norm_num
  · intro h1 h2
    unfold moe_ratio
    rw [min_eq_left h1, min_eq_left h2]
    norm_num

/-- A mixture-of-experts metadata: 8 experts, 2 used per token. -/
def mMoe : GGUFMetadata :=
  [("general.architecture", .str "llama"),
   ("llama.expert_count", .num 8),
   ("llama.expert_used_count", .num 2)]

/-- Witness for C5: with 8 experts and 2 used the ratio is still exactly 1, and
with both counts absent it is 1. -/
theorem c5_moe_ratio_clamp_witness :
    moe_ratio mMoe = 1 ∧ moe_ratio ([] : GGUFMetadata) = 1 := by
  constructor
  · exact (c5_moe_ratio_clamp mMoe).2.2
      (by rw [show n_expert_used mMoe = 2 from rfl]; norm_num)
      (by rw [show n_expert mMoe = 8 from rfl]; norm_num)
  · exact (c5_moe_ratio_clamp []).2.1 rfl rfl

/-- C6: with a tensor manifest, `memory.weight` is the sum over all tensors of
(product of the shape dimensions) * (bits(dtype)/8) * 1e-6 megabytes; with no
manifest it is exactly 0 and the call still succeeds. -/
theorem c6_weight_formula (config : RuntimeConfig) (m : GGUFMetadata)
    (hM : jsStartsWith (getArch m) "mamba" = false)
    (hR : jsStartsWith (getArch m) "rwkv" = false) :
    (∀ ts : List GGUFTensorInfo,
      (estimateRuntimeRequirement config m (some ts)).map (fun r => r.memory.weight)
        = .ok ((ts.map (fun ti =>
            ((ti.shape.prod : ℕ) : ℚ) * (GGML_QUANT_SIZES ti.dtype / 8) * TO_MEGA)).sum)) ∧
    (estimateRuntimeRequirement config m none).map (fun r => r.memory.weight) = .ok 0 := by
  constructor
  · intro ts
    rw [estimate_ok config m (some ts) hM hR]
    have hfun : (fun ti : GGUFTensorInfo =>
          ((ti.shape.prod : ℕ) : ℚ) * (GGML_QUANT_SIZES ti.dtype / 8) * TO_MEGA)
        = (fun ti : GGUFTensorInfo =>
          ((ti.shape.foldl (· * ·) 1 : ℕ) : ℚ) * (GGML_QUANT_SIZES ti.dtype / 8) * TO_MEGA) := by
      funext ti
      rw [List.prod_eq_foldl]
    simp only [Except.map]
    rw [mBytesWeight_eq, hfun]
    rfl
  · rw [estimate_ok config m none hM hR]
    rfl

/-- A one-tensor manifest: a 2×3 tensor of 32-bit floats (24 bytes). -/
def tsW : List GGUFTensorInfo := [{ name := "w", shape := [2, 3], dtype := .F32 }]

/-- Witness for C6: the 2×3 F32 tensor weighs 24e-6 MB; with no manifest the
weight is 0 on the same metadata. -/
theorem c6_weight_formula_witness :
    (estimateRuntimeRequirement cfgF16 mLlama (some tsW)).map (fun r => r.memory.weight)
        = .ok (3 / 125000) ∧
      (estimateRuntimeRequirement cfgF16 mLlama none).map (fun r => r.memory.weight)
        = .ok 0 := by
  obtain ⟨h1, h2⟩ := c6_weight_formula cfgF16 mLlama rfl rfl
  refine ⟨?_, h2⟩
  rw [h1 tsW]
  unfold tsW
  rw [List.map_cons, List.map_nil, List.sum_cons, List.sum_nil]
  rw [show (([2, 3] : List ℕ).prod : ℕ) = 6 from rfl]
  unfold GGML_QUANT_SIZES TO_MEGA
  push_cast
  norm_num

section NonnegLemmas

lemma lookup_mem {m : GGUFMetadata} {k : String} {v : GGUFValue}
    (h : m.lookup k = some v) : (k, v) ∈ m := by
  induction m with
  | nil => cases h
  | cons p ps ih =>
      obtain ⟨a, b⟩ := p
      by_cases e : (k == a) = true
      · have hk : k = a := eq_of_beq e
        simp only [List.lookup, e] at h
        rw [Option.some.injEq] at h
        subst h
        subst hk
        exact List.mem_cons_self _ _
      · have e' : (k == a) = false := by simpa using e
        simp only [List.lookup, e'] at h
        exact List.mem_cons_of_mem _ (ih h)

lemma GGML_QUANT_SIZES_nonneg (ty : GGMLQuantizationType) : 0 ≤ GGML_QUANT_SIZES ty := by
  cases ty <;> norm_num [GGML_QUANT_SIZES]

lemma TO_MEGA_nonneg : (0 : ℚ) ≤ TO_MEGA := by norm_num [TO_MEGA]

lemma TO_GIGA_nonneg : (0 : ℚ) ≤ TO_GIGA := by norm_num [TO_GIGA]

lemma readNum_getD_nonneg (m : GGUFMetadata) (hm : NonnegValues m) (k : String)
    {d : ℚ} (hd : 0 ≤ d) : 0 ≤ (readNum m k).getD d := by
  unfold readNum
  cases hl : m.lookup k with
  | none => simpa using hd
  | some v =>
      cases v with
      | num q =>
          have := hm k (.num q) (lookup_mem hl)
          simpa using this
      | arr l => simpa using hd
      | str s => simpa using hd

lemma n_embd_nonneg (m : GGUFMetadata) (hm : NonnegValues m) : 0 ≤ n_embd m :=
  readNum_getD_nonneg m hm _ le_rfl

lemma n_head_nonneg (m : GGUFMetadata) (hm : NonnegValues m) : 0 ≤ n_head m :=
  readNum_getD_nonneg m hm _ le_rfl

lemma n_embd_head_k_nonneg (m : GGUFMetadata) (hm : NonnegValues m) :
    0 ≤ n_embd_head_k m :=
  readNum_getD_nonneg m hm _ (div_nonneg (n_embd_nonneg m hm) (n_head_nonneg m hm))

lemma n_embd_head_v_nonneg (m : GGUFMetadata) (hm : NonnegValues m) :
    0 ≤ n_embd_head_v m :=
  readNum_getD_nonneg m hm _ (div_nonneg (n_embd_nonneg m hm) (n_head_nonneg m hm))

lemma n_ff_nonneg (m : GGUFMetadata) (hm : NonnegValues m) : 0 ≤ n_ff m :=
  readNum_getD_nonneg m hm _ zero_le_one

lemma n_vocab_nonneg (m : GGUFMetadata) (hm : NonnegValues m) : 0 ≤ n_vocab m :=
  readNum_getD_nonneg m hm _ zero_le_one

lemma n_head_kv_arr_nonneg (m : GGUFMetadata) (hm : NonnegValues m) :
    ∀ x ∈ n_head_kv_arr m, 0 ≤ x := by
  intro x hx
  unfold n_head_kv_arr at hx
  cases hkv : n_head_kv m with
  | num q =>
      rw [hkv] at hx
      have hq : 0 ≤ q := by
        unfold n_head_kv readNumOrArr at hkv
        cases hl : m.lookup (getArch m ++ ".attention.head_count_kv") with
        | none => rw [hl] at hkv; cases hkv
        | some v =>
            cases v with
            | num q' =>
                rw [hl] at hkv
                injection hkv with h
                subst h
                have := hm _ _ (lookup_mem hl)
                simpa using this
            | arr l => rw [hl] at hkv; cases hkv
            | str s => rw [hl] at hkv; cases hkv
      rw [List.mem_map] at hx
      obtain ⟨i, -, rfl⟩ := hx
      exact hq
  | arr l =>
      rw [hkv] at hx
      have hlnn : ∀ y ∈ l, 0 ≤ y := by
        unfold n_head_kv readNumOrArr at hkv
        cases hl : m.lookup (getArch m ++ ".attention.head_count_kv") with
        | none =>
            rw [hl] at hkv
            injection hkv with h
            subst h
            intro y hy
            cases hy
        | some v =>
            cases v with
            | num q' => rw [hl] at hkv; cases hkv
            | arr l' =>
                rw [hl] at hkv
                injection hkv with h
                subst h
                have := hm _ _ (lookup_mem hl)
                simpa using this
            | str s =>
                rw [hl] at hkv
                injection hkv with h
                subst h
                intro y hy
                cases hy
      rw [List.mem_map] at hx
      obtain ⟨i, -, rfl⟩ := hx
      cases hli : l[i]? with
      | none => simp [hli]; exact n_head_nonneg m hm
      | some q =>
          simp only [hli]
          by_cases hq0 : q = 0
          · simp [hq0]
            exact n_head_nonneg m hm
          · simp [hq0]
            exact hlnn q (List.getElem?_mem hli)

lemma cacheMBytesK_nonneg (config : RuntimeConfig) (m : GGUFMetadata)
    (hm : NonnegValues m) : 0 ≤ cacheMBytesK config m := by
  rw [cacheMBytesK_eq]
  apply List.sum_nonneg
  intro x hx
  rw [List.mem_map] at hx
  obtain ⟨h, hh, rfl⟩ := hx
  exact mul_nonneg
    (mul_nonneg (mul_nonneg (n_embd_head_k_nonneg m hm) (n_head_kv_arr_nonneg m hm h hh))
      (div_nonneg (GGML_QUANT_SIZES_nonneg _) (by norm_num)))
    TO_MEGA_nonneg

lemma cacheMBytesV_nonneg (config : RuntimeConfig) (m : GGUFMetadata)
    (hm : NonnegValues m) : 0 ≤ cacheMBytesV config m := by
  rw [cacheMBytesV_eq]
  apply List.sum_nonneg
  intro x hx
  rw [List.mem_map] at hx
  obtain ⟨h, hh, rfl⟩ := hx
  exact mul_nonneg
    (mul_nonneg (mul_nonneg (n_embd_head_v_nonneg m hm) (n_head_kv_arr_nonneg m hm h hh))
      (div_nonneg (GGML_QUANT_SIZES_nonneg _) (by norm_num)))
    TO_MEGA_nonneg

lemma mBytesWeight_nonneg (t : Option (List GGUFTensorInfo)) : 0 ≤ mBytesWeight t := by
  rw [mBytesWeight_eq]
  apply List.sum_nonneg
  intro x hx
  rw [List.mem_map] at hx
  obtain ⟨ti, -, rfl⟩ := hx
  exact mul_nonneg
    (mul_nonneg (Nat.cast_nonneg _) (div_nonneg (GGML_QUANT_SIZES_nonneg _) (by norm_num)))
    TO_MEGA_nonneg

lemma moe_ratio_ge_one (m : GGUFMetadata) : 1 ≤ moe_ratio m := le_max_left 1 _

lemma floatOpsLayer_nonneg (m : GGUFMetadata) (hm : NonnegValues m) :
    0 ≤ floatOpsLayer m := by
  unfold floatOpsLayer
  have h1 := n_embd_nonneg m hm
  have h2 := n_ff_nonneg m hm
  have h3 : (0 : ℚ) ≤ moe_ratio m := le_trans zero_le_one (moe_ratio_ge_one m)
  have t1 : (0 : ℚ) ≤ 1000 * n_embd m := mul_nonneg (by norm_num) h1
  have t2 : (0 : ℚ) ≤ 4 * 3 * n_embd m * n_embd m :=
    mul_nonneg (mul_nonneg (by norm_num) h1) h1
  have t3 : (0 : ℚ) ≤ 4 * 2 * n_embd m * n_ff m * moe_ratio m :=
    mul_nonneg (mul_nonneg (mul_nonneg (by norm_num) h1) h2) h3
  linarith

lemma gFloatOps_nonneg (m : GGUFMetadata) (hm : NonnegValues m) : 0 ≤ gFloatOps m := by
  rw [gFloatOps_eq]
  apply add_nonneg
  · exact mul_nonneg (Nat.cast_nonneg _)
      (mul_nonneg (floatOpsLayer_nonneg m hm) TO_GIGA_nonneg)
  · unfold floatOpsMatMul
    exact mul_nonneg
      (mul_nonneg (mul_nonneg (mul_nonneg (by norm_num) (n_embd_nonneg m hm))
        (n_vocab_nonneg m hm)) zero_le_one)
      TO_GIGA_nonneg

end NonnegLemmas

/-- Metadata with a negative `embedding_length` (and nothing else): the estimator
accepts it and produces a negative compute estimate. -/
def mNegEmbd : GGUFMetadata :=
  [("general.architecture", .str "llama"),
   ("llama.embedding_length", .num (-1))]

/-- Metadata with `block_count = 0`. -/
def mZero : GGUFMetadata :=
  [("general.architecture", .str "llama"),
   ("llama.block_count", .num 0),
   ("llama.embedding_length", .num 4096)]

/-- C7 counterexample: a non-rejected input (architecture `"llama"`,
`embedding_length = -1`) on which the returned `compute.gFloatOps` is strictly
negative, refuting the unconditional non-negativity of the derived quantities. -/
theorem c7_invariants_counterexample :
    (estimateRuntimeRequirement cfgF16 mNegEmbd none).map (fun r => r.compute.gFloatOps)
        = .ok (-(1 / 500000000)) ∧ (-(1 / 500000000) : ℚ) < 0 := by
  refine ⟨?_, by norm_num⟩
  rw [estimate_ok cfgF16 mNegEmbd none rfl rfl]
  simp only [Except.map]
  rw [Except.ok.injEq]
  have hln : n_layer_nat mNegEmbd = 0 := by
    unfold n_layer_nat
    rw [show n_layer mNegEmbd = 0 from rfl]
    simp
  rw [gFloatOps_eq, hln,
    show n_embd mNegEmbd = -1 from rfl, show n_vocab mNegEmbd = 1 from rfl]
  unfold floatOpsMatMul TO_GIGA
  norm_num

/-- C7 (amended): for every non-rejected input whose metadata holds only
non-negative numbers, all derived quantities of the returned record are
non-negative (without that restriction the code returns negative estimates, see
the counterexample); and for every input with `block_count = 0` the cache memory
is zero and the per-layer compute contribution is zero — only the final
output-projection term remains — yet a record is still returned. -/
theorem c7_invariants_amended (config : RuntimeConfig) (m : GGUFMetadata)
    (t : Option (List GGUFTensorInfo))
    (hM : jsStartsWith (getArch m) "mamba" = false)
    (hR : jsStartsWith (getArch m) "rwkv" = false) :
    (NonnegValues m →
      ∀ r, estimateRuntimeRequirement config m t = .ok r →
        0 ≤ r.memory.perToken ∧ 0 ≤ r.memory.weight ∧ 0 ≤ r.compute.gFloatOps) ∧
    (estimateRuntimeRequirement config m t).isOk = true ∧
    (m.lookup (getArch m ++ ".block_count") = some (.num 0) →
      (estimateRuntimeRequirement config m t).map (fun r => r.memory.perToken) = .ok 0 ∧
      (estimateRuntimeRequirement config m t).map (fun r => r.compute.gFloatOps)
        = .ok (floatOpsMatMul (n_embd m) (n_vocab m) 1 * TO_GIGA)) := by
  have hok := estimate_ok config m t hM hR
  refine ⟨?_, ?_, ?_⟩
  · intro hm r hr
    rw [hok, Except.ok.injEq] at hr
    subst hr
    exact ⟨add_nonneg (cacheMBytesK_nonneg config m hm) (cacheMBytesV_nonneg config m hm),
      mBytesWeight_nonneg t, gFloatOps_nonneg m hm⟩
  · rw [hok]
    rfl
  · intro hz
    have hl0 : n_layer m = 0 := by
      unfold n_layer readNum
      rw [hz]
      rfl
    have hln : n_layer_nat m = 0 := by
      unfold n_layer_nat
      rw [hl0]
      simp
    have harr : n_head_kv_arr m = [] := by
      unfold n_head_kv_arr
      cases n_head_kv m <;> rw [hln] <;> rfl
    constructor
    · rw [hok]
      simp only [Except.map]
      rw [Except.ok.injEq, cacheMBytesK_eq, cacheMBytesV_eq, harr]
      simp
    · rw [hok]
      simp only [Except.map]
      rw [Except.ok.injEq, gFloatOps_eq, hln]
      simp

/-- Witness for C7 (amended): the llama scenario has non-negative metadata and
non-negative outputs, and the `block_count = 0` metadata yields zero per-token
cache memory. -/
theorem c7_invariants_amended_witness :
    ((0 : ℚ) ≤ 8192 / 15625 ∧ (0 : ℚ) ≤ 0 ∧ (0 : ℚ) ≤ 12840976 / 1953125) ∧
      (estimateRuntimeRequirement cfgF16 mZero none).map (fun r => r.memory.perToken)
        = .ok 0 := by
  constructor
  · have hm : NonnegValues mLlama := by
      intro k v hv
      simp only [mLlama, List.mem_cons, List.not_mem_nil, or_false,
        Prod.mk.injEq] at hv
      rcases hv with ⟨rfl, rfl⟩ | ⟨rfl, rfl⟩ | ⟨rfl, rfl⟩ | ⟨rfl, rfl⟩ |
        ⟨rfl, rfl⟩ | ⟨rfl, rfl⟩ | ⟨rfl, rfl⟩ <;> norm_num
    exact (c7_invariants_amended cfgF16 mLlama none rfl rfl).1 hm _ estimate_mLlama
  · exact ((c7_invariants_amended cfgF16 mZero none rfl rfl).2.2 rfl).1

/-- C9: when the `"general.architecture"` key is absent, the architecture name
defaults to `"unknown"`, which is never rejected; the call succeeds, and — since
every metadata lookup then uses the `"unknown."` prefix — a metadata with no
`"unknown."`-prefixed keys behaves exactly like the empty metadata (every field
takes its default). -/
theorem c9_unknown_arch_default (config : RuntimeConfig) (m : GGUFMetadata)
    (t : Option (List GGUFTensorInfo))
    (h1 : m.lookup "general.architecture" = none) :
    getArch m = "unknown" ∧
    (estimateRuntimeRequirement config m t).isOk = true ∧
    ((∀ p ∈ m, jsStartsWith p.1 "unknown." = false) →
      estimateRuntimeRequirement config m t = estimateRuntimeRequirement config [] t) := by
  have harch : getArch m = "unknown" := by
    unfold getArch
    rw [h1]
  have hM : jsStartsWith (getArch m) "mamba" = false := by rw [harch]; rfl
  have hR : jsStartsWith (getArch m) "rwkv" = false := by rw [harch]; rfl
  refine ⟨harch, by rw [estimate_ok config m t hM hR]; rfl, ?_⟩
  intro h2
  have hnone : ∀ k : String, jsStartsWith k "unknown." = true → m.lookup k = none := by
    intro k hk
    apply lookup_eq_none_of_forall
    intro p hp e
    have hf := h2 p hp
    rw [e, hk] at hf
    cases hf
  have e_embd : n_embd m = 0 := by
    unfold n_embd
    rw [harch]
    unfold readNum
    rw [hnone _ (by decide)]
    rfl
  have e_vocab : n_vocab m = 1 := by
    unfold n_vocab
    rw [harch]
    unfold readNum
    rw [hnone _ (by decide)]
    rfl
  have hkv : n_head_kv m = .arr [] := by
    unfold n_head_kv
    rw [harch]
    unfold readNumOrArr
    rw [hnone _ (by decide)]
  have hl : n_layer m = 0 := by
    unfold n_layer
    rw [harch]
    unfold readNum
    rw [hnone _ (by decide)]
    rfl
  have hln : n_layer_nat m = 0 := by
    unfold n_layer_nat
    rw [hl]
    simp
  have hln0 : n_layer_nat ([] : GGUFMetadata) = 0 := by
    unfold n_layer_nat
    rw [show n_layer ([] : GGUFMetadata) = 0 from rfl]
    simp
  have harr : n_head_kv_arr m = [] := by
    unfold n_head_kv_arr
    rw [hkv, hln]
    rfl
  have harr0 : n_head_kv_arr ([] : GGUFMetadata) = [] := by
    unfold n_head_kv_arr
    rw [show n_head_kv ([] : GGUFMetadata) = .arr [] from rfl, hln0]
    rfl
  have hcK : cacheMBytesK config m = cacheMBytesK config [] := by
    unfold cacheMBytesK
    rw [harr, harr0]
    rfl
  have hcV : cacheMBytesV config m = cacheMBytesV config [] := by
    unfold cacheMBytesV
    rw [harr, harr0]
    rfl
  have hgF : gFloatOps m = gFloatOps [] := by
    rw [gFloatOps_eq, gFloatOps_eq, hln, hln0, e_embd, e_vocab,
      show n_embd ([] : GGUFMetadata) = 0 from rfl,
      show n_vocab ([] : GGUFMetadata) = 1 from rfl]
    simp
  rw [estimate_ok config m t hM hR, estimate_ok config [] t rfl rfl, hcK, hcV, hgF]

/-- Metadata with no `"general.architecture"` key and no `"unknown."`-prefixed
keys: all of its bindings are invisible to the estimator. -/
def mNoArch : GGUFMetadata := [("llama.embedding_length", .num 4096)]

/-- Witness for C9: `mNoArch` resolves to architecture `"unknown"`, succeeds, and
estimates exactly like the empty metadata. -/
theorem c9_unknown_arch_default_witness :
    getArch mNoArch = "unknown" ∧
      (estimateRuntimeRequirement cfgF16 mNoArch none).isOk = true ∧
      estimateRuntimeRequirement cfgF16 mNoArch none
        = estimateRuntimeRequirement cfgF16 [] none := by
  obtain ⟨ha, hb, hc⟩ := c9_unknown_arch_default cfgF16 mNoArch none rfl
  exact ⟨ha, hb, hc (by decide)⟩

/-- C10: two calls that differ only in the runtime configuration (the cache
quantization types `kvTypeK`/`kvTypeV`) return identical `memory.weight` and
identical `compute.gFloatOps`: the configuration influences only
`memory.perToken`. -/
theorem c10_config_noninterference (cfg₁ cfg₂ : RuntimeConfig) (m : GGUFMetadata)
    (t : Option (List GGUFTensorInfo)) :
    (estimateRuntimeRequirement cfg₁ m t).map (fun r => r.memory.weight)
        = (estimateRuntimeRequirement cfg₂ m t).map (fun r => r.memory.weight) ∧
    (estimateRuntimeRequirement cfg₁ m t).map (fun r => r.compute.gFloatOps)
        = (estimateRuntimeRequirement cfg₂ m t).map (fun r => r.compute.gFloatOps) := by
  cases hM : jsStartsWith (getArch m) "mamba" with
  | true =>
      constructor <;> (unfold estimateRuntimeRequirement; rw [hM]; simp)
  | false =>
      cases hR : jsStartsWith (getArch m) "rwkv" with
      | true =>
          constructor <;> (unfold estimateRuntimeRequirement; rw [hM, hR]; simp)
      | false =>
          rw [estimate_ok cfg₁ m t hM hR, estimate_ok cfg₂ m t hM hR]
          constructor <;> simp only [Except.map]

section ScalingLemmas

lemma kvHeadConst_setNum_blockCount (m : GGUFMetadata) (q : ℚ) :
    kvHeadConst (setNum m (getArch m ++ ".block_count") q) = kvHeadConst m := by
  unfold kvHeadConst
  rw [n_head_kv_setNum_blockCount, n_head_setNum_blockCount]

lemma cacheMBytesK_setNum_blockCount (config : RuntimeConfig) (m : GGUFMetadata)
    (N : ℕ) (hs : scalarOrEmpty (n_head_kv m)) :
    cacheMBytesK config (setNum m (getArch m ++ ".block_count") (N : ℚ))
      = (N : ℚ) * (n_embd_head_k m * kvHeadConst m
          * (GGML_QUANT_SIZES (config.kvTypeK.getD .F16) / 8) * TO_MEGA) := by
  have hs' : scalarOrEmpty (n_head_kv (setNum m (getArch m ++ ".block_count") (N : ℚ))) := by
    rw [n_head_kv_setNum_blockCount]
    exact hs
  rw [cacheMBytesK_eq, n_head_kv_arr_of_scalarOrEmpty _ hs',
    n_layer_nat_setNum_blockCount, sum_map_map_const]
  rw [n_embd_head_k_setNum_blockCount, kvHeadConst_setNum_blockCount]

lemma cacheMBytesV_setNum_blockCount (config : RuntimeConfig) (m : GGUFMetadata)
    (N : ℕ) (hs : scalarOrEmpty (n_head_kv m)) :
    cacheMBytesV config (setNum m (getArch m ++ ".block_count") (N : ℚ))
      = (N : ℚ) * (n_embd_head_v m * kvHeadConst m
          * (GGML_QUANT_SIZES (config.kvTypeV.getD .F16) / 8) * TO_MEGA) := by
  have hs' : scalarOrEmpty (n_head_kv (setNum m (getArch m ++ ".block_count") (N : ℚ))) := by
    rw [n_head_kv_setNum_blockCount]
    exact hs
  rw [cacheMBytesV_eq, n_head_kv_arr_of_scalarOrEmpty _ hs',
    n_layer_nat_setNum_blockCount, sum_map_map_const]
  rw [n_embd_head_v_setNum_blockCount, kvHeadConst_setNum_blockCount]

lemma gFloatOps_setNum_blockCount (m : GGUFMetadata) (N : ℕ) :
    gFloatOps (setNum m (getArch m ++ ".block_count") (N : ℚ))
      = (N : ℚ) * (floatOpsLayer m * TO_GIGA)
        + floatOpsMatMul (n_embd m) (n_vocab m) 1 * TO_GIGA := by
  rw [gFloatOps_eq, n_layer_nat_setNum_blockCount, floatOpsLayer_setNum_blockCount,
    n_embd_setNum_blockCount, n_vocab_setNum_blockCount]

end ScalingLemmas

/-- C8: for metadata whose `head_count_kv` is a scalar or absent (constant
per-layer values), doubling `block_count` — every other field fixed — exactly
doubles `memory.perToken` and exactly doubles the per-layer portion of
`compute.gFloatOps` (the total minus the final output-projection term
`2 * embedding_length * vocab_size * 1e-9`). -/
theorem c8_linear_in_layers (config : RuntimeConfig) (m : GGUFMetadata)
    (t : Option (List GGUFTensorInfo)) (L : ℕ) (m₁ m₂ : GGUFMetadata)
    (hs : scalarOrEmpty (n_head_kv m))
    (hM : jsStartsWith (getArch m) "mamba" = false)
    (hR : jsStartsWith (getArch m) "rwkv" = false)
    (h₁ : m₁ = setNum m (getArch m ++ ".block_count") ((L : ℕ) : ℚ))
    (h₂ : m₂ = setNum m (getArch m ++ ".block_count") ((2 * L : ℕ) : ℚ)) :
    (estimateRuntimeRequirement config m₂ t).map (fun r => r.memory.perToken)
        = (estimateRuntimeRequirement config m₁ t).map (fun r => 2 * r.memory.perToken) ∧
    (estimateRuntimeRequirement config m₂ t).map
        (fun r => r.compute.gFloatOps - 2 * n_embd m * n_vocab m * TO_GIGA)
      = (estimateRuntimeRequirement config m₁ t).map
        (fun r => 2 * (r.compute.gFloatOps - 2 * n_embd m * n_vocab m * TO_GIGA)) := by
  subst h₁
  subst h₂
  have hM₁ : jsStartsWith
      (getArch (setNum m (getArch m ++ ".block_count") ((L : ℕ) : ℚ))) "mamba" = false := by
    rw [getArch_setNum_blockCount]
    exact hM
  have hR₁ : jsStartsWith
      (getArch (setNum m (getArch m ++ ".block_count") ((L : ℕ) : ℚ))) "rwkv" = false := by
    rw [getArch_setNum_blockCount]
    exact hR
  have hM₂ : jsStartsWith
      (getArch (setNum m (getArch m ++ ".block_count") ((2 * L : ℕ) : ℚ))) "mamba" = false := by
    rw [getArch_setNum_blockCount]
    exact hM
  have hR₂ : jsStartsWith
      (getArch (setNum m (getArch m ++ ".block_count") ((2 * L : ℕ) : ℚ))) "rwkv" = false := by
    rw [getArch_setNum_blockCount]
    exact hR
  rw [estimate_ok config _ t hM₁ hR₁, estimate_ok config _ t hM₂ hR₂]
  refine ⟨?_, ?_⟩
  · simp only [Except.map]
    rw [Except.ok.injEq]
    rw [cacheMBytesK_setNum_blockCount config m L hs,
      cacheMBytesV_setNum_blockCount config m L hs,
      cacheMBytesK_setNum_blockCount config m (2 * L) hs,
      cacheMBytesV_setNum_blockCount config m (2 * L) hs]
    push_cast
    ring
  · simp only [Except.map]
    rw [Except.ok.injEq]
    rw [gFloatOps_setNum_blockCount m L, gFloatOps_setNum_blockCount m (2 * L)]
    unfold floatOpsMatMul
    push_cast
    ring

/-- Witness for C8: on the llama scenario, setting `block_count` to 4 yields
exactly twice the per-token cache memory of setting it to 2. -/
theorem c8_linear_in_layers_witness :
    (estimateRuntimeRequirement cfgF16
        (setNum mLlama (getArch mLlama ++ ".block_count") ((2 * 2 : ℕ) : ℚ)) none).map
        (fun r => r.memory.perToken)
      = (estimateRuntimeRequirement cfgF16
        (setNum mLlama (getArch mLlama ++ ".block_count") ((2 : ℕ) : ℚ)) none).map
        (fun r => 2 * r.memory.perToken) :=
  (c8_linear_in_layers cfgF16 mLlama none 2 _ _
    (by rw [show n_head_kv mLlama = .num 32 from rfl]; trivial)
    rfl rfl rfl rfl).1
